import Mathlib

/-
Verification of the Warp-CLI dashboard core (src/warp.py) against its
natural-language specification.  The Python source is shallowly embedded:
pure logic becomes Lean functions, the curses/subprocess boundary becomes
explicit parameters (a `Gateway` environment function, subprocess outcomes,
modal inputs), and the mutable attributes of `LightningNode` /
`LightningCLIUI` become record-passing state.
-/

namespace Warp

/-! ## JSON values (results of Python `json.loads` on lightning-cli output) -/

mutual

/-- A JSON-like value as produced by `json.loads`.  Objects (`JObj`) keep the
key order of the parsed text; `json.loads` yields dicts with unique keys, so
first-binding lookup coincides with Python `dict` access. -/
inductive JsonVal where
  | str (s : String)
  | num (n : Int)
  | bool (b : Bool)
  | null
  | arr (elems : JArr)
  | obj (fields : JObj)

/-- A JSON array, as a chain of elements. -/
inductive JArr where
  | nil
  | cons (head : JsonVal) (tail : JArr)

/-- A JSON object, as a chain of key/value bindings. -/
inductive JObj where
  | nil
  | cons (key : String) (val : JsonVal) (rest : JObj)

end

deriving instance DecidableEq for JsonVal, JArr, JObj

/-- Build a `JArr` from a Lean list literal. -/
def jarr : List JsonVal → JArr
  | [] => .nil
  | v :: rest => .cons v (jarr rest)

/-- Build a `JObj` from a Lean list literal. -/
def jobj : List (String × JsonVal) → JObj
  | [] => .nil
  | (k, v) :: rest => .cons k v (jobj rest)

/-- Python `d.get(key, default)`. -/
def pyGetD : JObj → String → JsonVal → JsonVal
  | .nil, _, d => d
  | .cons k v rest, key, d => if k = key then v else pyGetD rest key d

/-- Python `key in d`. -/
def hasKey : JObj → String → Bool
  | .nil, _ => false
  | .cons k _ rest, key => k == key || hasKey rest key

/-- Python `d[key]`, `none` meaning a `KeyError`. -/
def lookupJ : JObj → String → Option JsonVal
  | .nil, _ => none
  | .cons k v rest, key => if k = key then some v else lookupJ rest key

/-! ## Python string primitives used by warp.py -/

/-- Worker for `pySplit`: `cur` holds the reversed current token. -/
def pySplitAux : List Char → List Char → List String
  | [], cur => if cur.isEmpty then [] else [String.mk cur.reverse]
  | c :: cs, cur =>
    if c.isWhitespace then
      if cur.isEmpty then pySplitAux cs []
      else String.mk cur.reverse :: pySplitAux cs []
    else pySplitAux cs (c :: cur)

/-- Python `s.split()` with no argument: split on whitespace runs, discarding
empty tokens. -/
def pySplit (s : String) : List String := pySplitAux s.toList []

/-- Python `s.strip()`: remove leading and trailing whitespace. -/
def pyStrip (s : String) : String :=
  String.mk (((s.toList.dropWhile Char.isWhitespace).reverse.dropWhile
    Char.isWhitespace).reverse)

/-- Python `s.lower()`, restricted to the ASCII case mapping (the only case
the program compares against is the ASCII literal "force"). -/
def pyLower (s : String) : String := String.mk (s.toList.map Char.toLower)

/-- Python `" ".join(tokens)`. -/
def joinSpace : List String → String
  | [] => ""
  | [x] => x
  | x :: rest => x ++ " " ++ joinSpace rest

/-- Numeric value of a digit string, most significant digit first. -/
def digitsToNat (cs : List Char) : Nat :=
  cs.foldl (fun a c => 10 * a + (c.toNat - 48)) 0

/-- Python `int(s)` on the tokens produced by `split()` (so no interior
whitespace): an optional sign followed by decimal digits.  `none` models a
`ValueError`.  Underscore digit grouping of CPython literals is not
modelled; no input exercised by the program uses it. -/
def pyInt (s : String) : Option Int :=
  match s.toList with
  | [] => none
  | '+' :: rest =>
    if rest.all Char.isDigit && !rest.isEmpty then some ((digitsToNat rest : Nat) : Int)
    else none
  | '-' :: rest =>
    if rest.all Char.isDigit && !rest.isEmpty then some (-((digitsToNat rest : Nat) : Int))
    else none
  | cs =>
    if cs.all Char.isDigit then some ((digitsToNat cs : Nat) : Int) else none

/-- The text of the `ValueError` raised by Python `int(lit)` on a bad
literal. -/
def intErrMsg (lit : String) : String :=
  "invalid literal for int() with base 10: '" ++ lit ++ "'"

/-- Does `needle` occur at the head of `hay`? -/
def leadMatch : List Char → List Char → Bool
  | [], _ => true
  | _ :: _, [] => false
  | a :: as, b :: bs => a == b && leadMatch as bs

/-- Does `needle` occur anywhere in the character list? -/
def subSearch (needle : List Char) : List Char → Bool
  | [] => needle.isEmpty
  | c :: rest => leadMatch needle (c :: rest) || subSearch needle rest

/-- Python `needle in hay` on strings (substring test). -/
def strContains (hay needle : String) : Bool := subSearch needle.toList hay.toList

/-! ## The Gateway boundary: `LightningNode.run_command` (warp.py lines 28-53) -/

/-- The observable classes of a completed subprocess's stdout with respect to
`strip()` and `json.loads` (both external collaborators). -/
inductive StdoutShape where
  | empty
  | unparseable (raw : String)
  | parsed (v : JsonVal)
deriving DecidableEq

/-- The outcome of `subprocess.run(..., check=True)` for one invocation:
the interpreter either raises `FileNotFoundError`, raises
`CalledProcessError` (non-zero exit), raises some other exception, or
completes with captured stdout. -/
inductive SubprocOutcome where
  | fileNotFound
  | calledProcessError (stderr : String)
  | otherException (msg : String)
  | completed (stdout : StdoutShape)
deriving DecidableEq

/-- The Python value returned by `run_command`: either the `json.loads`
result or an error message `str`. -/
inductive RunResult where
  | parsed (v : JsonVal)
  | errStr (s : String)
deriving DecidableEq

/-- `LightningNode.run_command` (warp.py lines 28-53): every failure mode is
caught inside the function and converted into an error string; a successful
parse returns the parsed JSON value. -/
def run_command (command : String) (outcome : SubprocOutcome) : RunResult :=
  match outcome with
  | .completed .empty => .errStr "Error: Empty response from command."
  | .completed (.unparseable _) => .errStr "Error: Unable to parse JSON response."
  | .completed (.parsed v) => .parsed v
  | .calledProcessError stderr =>
    .errStr ("Error executing " ++ command ++ ": " ++ pyStrip stderr)
  | .fileNotFound =>
    .errStr "Error: lightning-cli not found. Is the Lightning node running?"
  | .otherException m => .errStr ("Unexpected error: " ++ m)

/-- The stdout JSON value of an outcome, when there is one. -/
def parsedStdout : SubprocOutcome → Option JsonVal
  | .completed (.parsed v) => some v
  | _ => none

/-! ## Balances: `LightningNode.get_balances` (warp.py lines 55-74) -/

/-- One component of the pair returned by `get_balances`: a Python int or a
Python error string. -/
inductive BalanceVal where
  | sats (n : Int)
  | err (s : String)
deriving DecidableEq

/-- Placeholder for Python's `str(e)` in the `except` branch of
`get_balances`: its exact text depends on which exception was raised while
summing; no claim depends on it. -/
def balancesExcMsg : String := "unsupported operand or missing key"

/-- `sum(item[key] for item in items)`, `none` modelling the exception
raised when an item is not a dict, lacks the key, or holds a non-numeric
value. -/
def sumMsat (key : String) : JArr → Option Int
  | .nil => some 0
  | .cons x rest =>
    match x with
    | .obj fs =>
      match lookupJ fs key with
      | some (.num n) => (sumMsat key rest).map (fun t => n + t)
      | _ => none
    | _ => none

/-- `LightningNode.get_balances` (warp.py lines 55-74).  A `str` result from
`run_command` (and a JSON string, which is also a Python `str`) is returned
verbatim in both positions; a malformed structured result trips the
`except Exception` branch, which returns two different strings. -/
def get_balances (outcome : SubprocOutcome) : BalanceVal × BalanceVal :=
  match run_command "listfunds" outcome with
  | .errStr s => (.err s, .err s)
  | .parsed (.str s) => (.err s, .err s)
  | .parsed (.obj fs) =>
    match pyGetD fs "channels" (.arr .nil), pyGetD fs "outputs" (.arr .nil) with
    | .arr chs, .arr outs =>
      match sumMsat "amount_msat" outs, sumMsat "our_amount_msat" chs with
      | some onchain, some lightning =>
        (.sats (Int.fdiv onchain 1000), .sats (Int.fdiv lightning 1000))
      | _, _ => (.err "Error fetching balances", .err balancesExcMsg)
    | _, _ => (.err "Error fetching balances", .err balancesExcMsg)
  | .parsed _ => (.err "Error fetching balances", .err balancesExcMsg)

/-! ## NodeState: the shared attributes of `LightningNode` -/

/-- The node/wallet attributes of `LightningNode` shared between the two
poller threads and the render loop.  `current_block_height` and `num_peers`
hold whatever `result.get` returned (the initial Python `None` is modelled
as `JsonVal.null`, the initial peer count `0` as `JsonVal.num 0`). -/
structure NodeSt where
  node_active : Bool
  current_block_height : JsonVal
  num_peers : JsonVal
  wallet_active : Bool
  channels : JsonVal
deriving DecidableEq

/-- The state installed by `LightningNode.__init__` (warp.py lines 19-26). -/
def node0 : NodeSt :=
  { node_active := false
    current_block_height := .null
    num_peers := .num 0
    wallet_active := false
    channels := .arr .nil }

/-- `LightningNode.check_node_status` (warp.py lines 90-102) applied to the
`run_command "getinfo"` result.  The `except` branch is unreachable:
`run_command` is total and `isinstance` / `dict.get` cannot raise. -/
def check_node_status (result : RunResult) (st : NodeSt) : NodeSt :=
  match result with
  | .parsed (.obj fs) =>
    { st with
      node_active := true
      current_block_height := pyGetD fs "blockheight" (.str "Unknown")
      num_peers := pyGetD fs "num_peers" (.num 0) }
  | _ => { st with node_active := false }

/-- `LightningNode.check_wallet_status` (warp.py lines 104-114) applied to
the `run_command "listfunds"` result.  `wallet_active` is assigned
unconditionally; `channels` is reassigned only when the wallet is active
(the `except` branch that clears it is unreachable, as in
`check_node_status`). -/
def check_wallet_status (result : RunResult) (st : NodeSt) : NodeSt :=
  match result with
  | .parsed (.obj fs) =>
    if hasKey fs "outputs" then
      { st with
        wallet_active := true
        channels := pyGetD fs "channels" (.arr .nil) }
    else { st with wallet_active := false }
  | _ => { st with wallet_active := false }

/-! ## Poll cycles: `monitor_node_status` / `monitor_wallet_status`
(warp.py lines 579-603) -/

/-- One iteration of `LightningCLIUI.monitor_node_status` (warp.py lines
579-590): run the check, then raise `balances_changed` if the active flag or
the block height changed against the previous iteration's values. -/
def node_poll_cycle (result : RunResult) (st : NodeSt) (dirty : Bool) : NodeSt × Bool :=
  let st' := check_node_status result st
  (st',
    if st'.node_active ≠ st.node_active ∨
        st'.current_block_height ≠ st.current_block_height then true
    else dirty)

/-- One iteration of `LightningCLIUI.monitor_wallet_status` (warp.py lines
592-603): run the check, then raise `balances_changed` if the wallet flag or
the channel list changed (structural `!=` comparison). -/
def wallet_poll_cycle (result : RunResult) (st : NodeSt) (dirty : Bool) : NodeSt × Bool :=
  let st' := check_wallet_status result st
  (st',
    if st'.wallet_active ≠ st.wallet_active ∨ st'.channels ≠ st.channels then true
    else dirty)

/-! ## Output formatting

The spec places JSON text formatting and wrapping out of scope ("terminal
drawing primitives, JSON text formatting/wrapping ... are external
collaborators"), and no claim inspects formatted output, so the serializer
below renders values on one line and the word-wrap of `format_json`
(warp.py lines 564-577) is not modelled. -/

mutual

/-- `json.dumps` on a parsed value (layout abstracted, see above). -/
def json_dumps : JsonVal → String
  | .str s => "\"" ++ s ++ "\""
  | .num n => toString n
  | .bool b => cond b "true" "false"
  | .null => "null"
  | .arr es => "[" ++ dumpsArr es ++ "]"
  | .obj fs => "\x7b" ++ dumpsObj fs ++ "\x7d"

/-- Elements of an array, comma separated. -/
def dumpsArr : JArr → String
  | .nil => ""
  | .cons v .nil => json_dumps v
  | .cons v rest => json_dumps v ++ ", " ++ dumpsArr rest

/-- Bindings of an object, comma separated. -/
def dumpsObj : JObj → String
  | .nil => ""
  | .cons k v .nil => "\"" ++ k ++ "\": " ++ json_dumps v
  | .cons k v rest => "\"" ++ k ++ "\": " ++ json_dumps v ++ ", " ++ dumpsObj rest

end

/-- `json.dumps(response, indent=4)` applied to a `run_command` return value
(a parsed value or an error `str`; dumping a Python `str` quotes it). -/
def dumpsRun : RunResult → String
  | .parsed v => json_dumps v
  | .errStr s => json_dumps (.str s)

/-- `LightningCLIUI.format_json` applied to a `run_command` return value
(the invoice branch passes error strings through it as well). -/
def format_json_run : RunResult → String := dumpsRun

/-! ## UI session state (`LightningCLIUI` attributes) -/

/-- The value held by `self.result_output`.  It is a Python `str` on every
path except the generic pass-through branch, which assigns a parsed non-dict
JSON value verbatim (warp.py line 518). -/
inductive OutVal where
  | s (text : String)
  | v (val : JsonVal)
deriving DecidableEq

/-- The mutable `LightningCLIUI` attributes relevant to dispatch, plus the
shared `LightningNode` state. -/
structure Sys where
  command_history : List String
  current_command : String
  cursor_x : Nat
  result_output : OutVal
  show_menu : Bool
  balances_changed : Bool
  background_thread_running : Bool
  node : NodeSt
deriving DecidableEq

/-- The state after `LightningCLIUI.__init__` (warp.py lines 121-139). -/
def sys0 : Sys :=
  { command_history := []
    current_command := ""
    cursor_x := 0
    result_output := .s ""
    show_menu := false
    balances_changed := true
    background_thread_running := true
    node := node0 }

/-- One Gateway invocation: command name and positional string arguments. -/
abbrev GCall := String × List String

/-- The external Gateway: what `run_command` returns for a given command and
argument list during this dispatch (totality of that shape is proved from
`run_command` itself). -/
abbrev Gateway := String → List String → RunResult

/-- Usage string of the `openchannel` builtin (warp.py line 481). -/
def openchannelUsage : String := "Error: Usage: openchannel <peer_id> <amount> [feerate]"

/-- Usage string of the `closechannel` builtin (warp.py line 489). -/
def closechannelUsage : String := "Error: Usage: closechannel <channel_id> [force]"

/-- Usage string of the `invoice` builtin (warp.py line 496). -/
def invoiceUsage : String := "Error: Usage: invoice <amt> <label> <desc>"

/-- `LightningNode.open_channel` parameter construction (warp.py lines
76-81): `[peer_id, str(amount)]` plus the feerate when one was given (the
third token is never the empty string, so Python's truthiness test on it is
`isSome`). -/
def open_channel_params (peer_id amount : String) (feerate : Option String) : List String :=
  [peer_id, amount] ++ (match feerate with | some f => [f] | none => [])

/-- `LightningNode.close_channel` parameter construction (warp.py lines
83-88): the channel id plus a `"force"` directive when requested. -/
def close_channel_params (channel_id : String) (force : Bool) : List String :=
  channel_id :: (if force then ["force"] else [])

/-- The force test of the closechannel branch on the tokens after the
channel id (warp.py line 492): `len(params) > 1 and params[1].lower() ==
"force"`. -/
def forceRequested : List String → Bool
  | second :: _ => pyLower second == "force"
  | [] => false

/-- How `result_output` is assigned from a response in the generic
pass-through and `pay` branches: dict results are formatted, anything else
(error strings, and parsed non-dict values) is assigned verbatim. -/
def store_response : RunResult → OutVal
  | .parsed (.obj fs) => .s (format_json_run (.parsed (.obj fs)))
  | .parsed (.str s) => .s s
  | .parsed v => .v v
  | .errStr s => .s s

/-- The outcome of one `LightningCLIUI.execute_command` call: a normal
return, the `SystemExit` raised by `quit`, the uncaught `ValueError` raised
by `int()` on a malformed invoice amount, or entry into the `fetchinvoice`
modal (`show_bolt12_popup`), whose nested input loop is not modelled
further.  Each constructor carries the attribute state at that point and
the Gateway calls issued so far. -/
inductive ExecOutcome where
  | ok (st : Sys) (calls : List GCall)
  | sysExit (st : Sys) (calls : List GCall)
  | valueError (msg : String) (st : Sys) (calls : List GCall)
  | fetchModal (st : Sys)
deriving DecidableEq

/-- `LightningCLIUI.execute_command` (warp.py lines 464-518).  `split()` of
the raw line is empty exactly when `strip()` is empty, which is the
early-return case; otherwise the line is appended to the history before any
branch runs.  The bolt11 display popup in the invoice branch is read-only
and leaves no state behind, so it is not modelled. -/
def execute_command (env : Gateway) (command : String) (st : Sys) : ExecOutcome :=
  match pySplit command with
  | [] => .ok st []
  | command_name :: params =>
    let st := { st with command_history := st.command_history ++ [command] }
    if command_name = "quit" then
      .sysExit { st with background_thread_running := false } []
    else if command_name = "openchannel" then
      match params with
      | peer_id :: amount :: rest =>
        let args := open_channel_params peer_id amount rest.head?
        let response := env "fundchannel" args
        .ok { st with result_output := .s (dumpsRun response) } [("fundchannel", args)]
      | _ => .ok { st with result_output := .s openchannelUsage } []
    else if command_name = "closechannel" then
      match params with
      | channel_id :: rest =>
        let args := close_channel_params channel_id (forceRequested rest)
        let response := env "close" args
        .ok { st with result_output := .s (dumpsRun response) } [("close", args)]
      | [] => .ok { st with result_output := .s closechannelUsage } []
    else if command_name = "invoice" then
      match params with
      | amtLit :: label :: d1 :: drest =>
        match pyInt amtLit with
        | some n =>
          let amt := toString (n * 1000)
          let desc := joinSpace (d1 :: drest)
          let response := env "invoice" [amt, label, desc]
          .ok { st with result_output := .s (format_json_run response) }
            [("invoice", [amt, label, desc])]
        | none => .valueError (intErrMsg amtLit) st []
      | _ => .ok { st with result_output := .s invoiceUsage } []
    else if command_name = "fetchinvoice" then
      .fetchModal st
    else
      let response := env command_name params
      .ok { st with result_output := store_response response } [(command_name, params)]

/-- `LightningCLIUI.pay_invoice_popup` (warp.py lines 522-561), with the
modal's collected input (the stripped lines already joined by `''.join`)
passed in as `invoice_input`. -/
def pay_invoice_popup (env : Gateway) (invoice_input : String) (st : Sys) :
    Sys × List GCall :=
  if invoice_input = "" then (st, [])
  else
    let response := env "pay" [invoice_input]
    ({ st with result_output := store_response response }, [("pay", [invoice_input])])

/-- How one ENTER submission leaves the `run` loop (warp.py lines 328-341
and the surrounding `try`/`except` at lines 315/354-356): the loop
continues, or an exception was caught by `run`'s top-level handler (which
stores an error string and then lets the `while` loop terminate), or
`SystemExit` propagates past `run` entirely. -/
inductive RunStep where
  | cont (st : Sys) (calls : List GCall)
  | fatalCaught (st : Sys) (calls : List GCall)
  | sysExit (st : Sys) (calls : List GCall)
deriving DecidableEq

/-- The ENTER branch of `LightningCLIUI.run` (warp.py lines 328-341) for the
current input buffer, together with `run`'s top-level exception handling.
`pay_input` is the text a `pay` modal would collect.  On a caught exception
the buffer reset at lines 340-341 is skipped, and `except Exception` does
not catch `SystemExit`. -/
def on_enter (env : Gateway) (pay_input : String) (st : Sys) : RunStep :=
  if pyStrip st.current_command = "help" then
    let st1 := if !st.show_menu then { st with show_menu := true, balances_changed := true }
      else st
    .cont { st1 with current_command := "", cursor_x := 0 } []
  else if pyStrip st.current_command = "pay" then
    let r := pay_invoice_popup env pay_input st
    .cont { r.1 with balances_changed := true, current_command := "", cursor_x := 0 } r.2
  else
    match execute_command env st.current_command { st with show_menu := false } with
    | .ok st1 calls =>
      .cont { st1 with balances_changed := true, current_command := "", cursor_x := 0 } calls
    | .sysExit st1 calls => .sysExit st1 calls
    | .valueError msg st1 calls =>
      .fatalCaught { st1 with result_output := .s ("Error: " ++ msg) } calls
    | .fetchModal st1 =>
      .cont { st1 with balances_changed := true, current_command := "", cursor_x := 0 } []

/-- Gateway calls recorded by an `ExecOutcome` (calls made inside the
`fetchinvoice` modal are outside the model). -/
def ExecOutcome.gcalls : ExecOutcome → List GCall
  | .ok _ calls => calls
  | .sysExit _ calls => calls
  | .valueError _ _ calls => calls
  | .fetchModal _ => []

/-- Attribute state carried by an `ExecOutcome`. -/
def ExecOutcome.state : ExecOutcome → Sys
  | .ok st _ => st
  | .sysExit st _ => st
  | .valueError _ st _ => st
  | .fetchModal st => st

/-- Does this step leave the `run` loop running? -/
def RunStep.continues : RunStep → Bool
  | .cont _ _ => true
  | _ => false

/-- Attribute state carried by a `RunStep`. -/
def RunStep.state : RunStep → Sys
  | .cont st _ => st
  | .fatalCaught st _ => st
  | .sysExit st _ => st

/-- Gateway calls recorded by a `RunStep`. -/
def RunStep.gcalls : RunStep → List GCall
  | .cont _ calls => calls
  | .fatalCaught _ calls => calls
  | .sysExit _ calls => calls

/-! ## Field-granular shared-memory model

`check_node_status` runs on a background thread and assigns the shared
`LightningNode` attributes one `self.x = ...` statement at a time, with no
lock anywhere in the program; the render thread reads the same attributes
one at a time (`draw_balance_panel` reads `num_peers` at warp.py line 291,
then `draw_block_height` reads `current_block_height` at line 306).  Each
attribute access is one atomic action; a thread schedule is an interleaving
of the two threads' action sequences. -/

/-- One atomic access to the shared `LightningNode` attributes: the three
assignments performed by `check_node_status`, and the two reads performed
by the redraw path, in their source order. -/
inductive MemAction where
  | wActive (b : Bool)
  | wHeight (v : JsonVal)
  | wPeers (v : JsonVal)
  | rPeers
  | rHeight
deriving DecidableEq

/-- Effect of one action: the updated shared state, plus the value a read
observes. -/
def stepAct (st : NodeSt) : MemAction → NodeSt × Option JsonVal
  | .wActive b => ({ st with node_active := b }, none)
  | .wHeight v => ({ st with current_block_height := v }, none)
  | .wPeers v => ({ st with num_peers := v }, none)
  | .rPeers => (st, some st.num_peers)
  | .rHeight => (st, some st.current_block_height)

/-- Run a schedule of actions, collecting the read observations in order. -/
def runSched : List MemAction → NodeSt → NodeSt × List JsonVal
  | [], st => (st, [])
  | a :: rest, st =>
    let r := stepAct st a
    let t := runSched rest r.1
    (t.1, r.2.toList ++ t.2)

/-- The attribute assignments performed by one `check_node_status` call
(warp.py lines 94, 97, 98), in source order. -/
def nodeWrites (result : RunResult) : List MemAction :=
  match result with
  | .parsed (.obj fs) =>
    [.wActive true,
     .wHeight (pyGetD fs "blockheight" (.str "Unknown")),
     .wPeers (pyGetD fs "num_peers" (.num 0))]
  | _ => [.wActive false]

/-- The reads of `num_peers` (warp.py line 291) and
`current_block_height` (line 306) performed by one redraw. -/
def panelReads : List MemAction := [.rPeers, .rHeight]

/-- `sched` is an interleaving of the two threads' action sequences. -/
inductive Interleaves : List MemAction → List MemAction → List MemAction → Prop
  | nil : Interleaves [] [] []
  | left {a : MemAction} {xs ys zs : List MemAction} :
      Interleaves xs ys zs → Interleaves (a :: xs) ys (a :: zs)
  | right {a : MemAction} {xs ys zs : List MemAction} :
      Interleaves xs ys zs → Interleaves xs (a :: ys) (a :: zs)

/-! ## Concrete fixtures used by counterexamples and witnesses -/

/-- A Gateway that fails every call — the simplest concrete environment for
exercising dispatch paths whose claims do not depend on the response. -/
def env0 : Gateway := fun _ _ => .errStr "gateway unavailable"

/-- A pre-poll node state: an earlier getinfo cycle saw block height 100 and
3 peers. -/
def nodeBefore : NodeSt :=
  { node0 with node_active := true, current_block_height := .num 100, num_peers := .num 3 }

/-- A getinfo result for the next poll cycle: block height 101, 5 peers. -/
def getinfoAfter : RunResult :=
  .parsed (.obj (jobj [("blockheight", .num 101), ("num_peers", .num 5)]))

/-- A schedule in which the render thread reads `num_peers` between the
poller's writes of `current_block_height` and `num_peers`. -/
def tornSchedule : List MemAction :=
  [.wActive true, .wHeight (.num 101), .rPeers, .wPeers (.num 5), .rHeight]

/-! ## Theorems -/

/-- Consistency of the action-level model with the sequential function:
running the write sequence of a poll alone reproduces
`check_node_status`. -/
theorem nodeWrites_check (result : RunResult) (st : NodeSt) :
    (runSched (nodeWrites result) st).1 = check_node_status result st := by
  cases result with
  | errStr s => rfl
  | parsed v => cases v <;> rfl

/-- C3: whenever the Gateway call for the funds query fails (i.e.
`run_command "listfunds"` returns an error string), `get_balances` returns
that very string as both the on-chain and the lightning balance — the same
single error marker in both positions. -/
theorem balances_same_error_marker (outcome : SubprocOutcome) (s : String)
    (h : run_command "listfunds" outcome = RunResult.errStr s) :
    get_balances outcome = (BalanceVal.err s, BalanceVal.err s) := by
  cases outcome with
  | fileNotFound =>
    simp [run_command] at h
    subst h
    rfl
  | calledProcessError stderr =>
    simp [run_command] at h
    subst h
    rfl
  | otherException m =>
    simp [run_command] at h
    subst h
    rfl
  | completed sh =>
    cases sh with
    | empty =>
      simp [run_command] at h
      subst h
      rfl
    | unparseable raw =>
      simp [run_command] at h
      subst h
      rfl
    | parsed v => simp [run_command] at h

/-- Witness for C3 at a concrete failing outcome (`lightning-cli` missing). -/
theorem balances_same_error_marker_witness :
    get_balances SubprocOutcome.fileNotFound =
      (BalanceVal.err "Error: lightning-cli not found. Is the Lightning node running?",
       BalanceVal.err "Error: lightning-cli not found. Is the Lightning node running?") :=
  balances_same_error_marker SubprocOutcome.fileNotFound
    "Error: lightning-cli not found. Is the Lightning node running?" rfl

/-- C10: `run_command` is total over every subprocess outcome and its return
value classifies the outcome: it returns the parsed JSON value exactly when
the subprocess completed with parseable, non-empty stdout, and an error
string for every failure mode (empty output, unparseable output, non-zero
exit, missing executable, other exception). -/
theorem run_command_total_classified (command : String) (outcome : SubprocOutcome) :
    (∀ v, parsedStdout outcome = some v →
      run_command command outcome = RunResult.parsed v) ∧
    (parsedStdout outcome = none →
      ∃ s, run_command command outcome = RunResult.errStr s) ∧
    (∀ v, run_command command outcome = RunResult.parsed v →
      parsedStdout outcome = some v) := by
  cases outcome with
  | fileNotFound =>
    exact ⟨fun v h => by simp [parsedStdout] at h, fun _ => ⟨_, rfl⟩,
      fun v h => by simp [run_command] at h⟩
  | calledProcessError stderr =>
    exact ⟨fun v h => by simp [parsedStdout] at h, fun _ => ⟨_, rfl⟩,
      fun v h => by simp [run_command] at h⟩
  | otherException m =>
    exact ⟨fun v h => by simp [parsedStdout] at h, fun _ => ⟨_, rfl⟩,
      fun v h => by simp [run_command] at h⟩
  | completed sh =>
    cases sh with
    | empty =>
      exact ⟨fun v h => by simp [parsedStdout] at h, fun _ => ⟨_, rfl⟩,
        fun v h => by simp [run_command] at h⟩
    | unparseable raw =>
      exact ⟨fun v h => by simp [parsedStdout] at h, fun _ => ⟨_, rfl⟩,
        fun v h => by simp [run_command] at h⟩
    | parsed v0 =>
      refine ⟨fun v h => ?_, fun h => by simp [parsedStdout] at h, fun v h => ?_⟩
      · simp [parsedStdout] at h
        subst h
        rfl
      · simp [run_command] at h
        subst h
        rfl

/-- Witness for C10: a failing outcome yields an error string, a parsed
outcome yields the parsed value. -/
theorem run_command_total_classified_witness :
    (∃ s, run_command "getinfo" (SubprocOutcome.calledProcessError " boom ")
      = RunResult.errStr s) ∧
    run_command "getinfo" (SubprocOutcome.completed (.parsed (.obj .nil)))
      = RunResult.parsed (.obj .nil) :=
  ⟨(run_command_total_classified "getinfo" (SubprocOutcome.calledProcessError " boom ")).2.1 rfl,
   (run_command_total_classified "getinfo"
      (SubprocOutcome.completed (.parsed (.obj .nil)))).1 (.obj .nil) rfl⟩

/-- C9: in every poll cycle of either poller, if the newly observed liveness
flag (`node_active` / `wallet_active`), block height, or channel list
differs by structural equality from the previous cycle's value, the dirty
flag (`balances_changed`) is true at the end of the cycle — i.e. before any
later redraw decision is evaluated. -/
theorem poll_change_raises_dirty (rN rW : RunResult) (stN stW : NodeSt) (dN dW : Bool) :
    (((node_poll_cycle rN stN dN).1.node_active ≠ stN.node_active ∨
        (node_poll_cycle rN stN dN).1.current_block_height ≠ stN.current_block_height) →
      (node_poll_cycle rN stN dN).2 = true) ∧
    (((wallet_poll_cycle rW stW dW).1.wallet_active ≠ stW.wallet_active ∨
        (wallet_poll_cycle rW stW dW).1.channels ≠ stW.channels) →
      (wallet_poll_cycle rW stW dW).2 = true) := by
  constructor
  · intro h
    simp only [node_poll_cycle] at h ⊢
    exact if_pos h
  · intro h
    simp only [wallet_poll_cycle] at h ⊢
    exact if_pos h

/-- Witness for C9: a cycle that flips `node_active` on, and a cycle that
flips `wallet_active` off, each set the dirty flag. -/
theorem poll_change_raises_dirty_witness :
    (node_poll_cycle (RunResult.parsed (.obj .nil)) node0 false).2 = true ∧
    (wallet_poll_cycle (RunResult.errStr "e") { node0 with wallet_active := true } false).2
      = true :=
  ⟨(poll_change_raises_dirty (RunResult.parsed (.obj .nil)) (RunResult.errStr "e")
      node0 { node0 with wallet_active := true } false false).1 (Or.inl (by decide)),
   (poll_change_raises_dirty (RunResult.parsed (.obj .nil)) (RunResult.errStr "e")
      node0 { node0 with wallet_active := true } false false).2 (Or.inl (by decide))⟩

/-- C4 counterexample: on a failed funds query (`run_command` returned an
error string) with a previously non-empty channel list, `check_wallet_status`
sets `wallet_active` to false but does NOT clear the channel list, contrary
to the claim's "otherwise ... the channel list is cleared". -/
theorem wallet_failure_keeps_channels :
    (check_wallet_status (RunResult.errStr "Error: Empty response from command.")
        { node0 with
          channels := .arr (.cons (.obj (.cons "short_channel_id" (.str "111x1x1") .nil)) .nil) }
      ).wallet_active = false ∧
    (check_wallet_status (RunResult.errStr "Error: Empty response from command.")
        { node0 with
          channels := .arr (.cons (.obj (.cons "short_channel_id" (.str "111x1x1") .nil)) .nil) }
      ).channels ≠ JsonVal.arr .nil := by decide

/-- C4 amended: if the funds result is a dict containing an "outputs" field
then `wallet_active` becomes true and the channel list is replaced with the
returned channels (order as returned); otherwise `wallet_active` becomes
false and the channel list is left unchanged (it is not cleared). -/
theorem wallet_status_update (result : RunResult) (st : NodeSt) :
    ((check_wallet_status result st).wallet_active = true ↔
      ∃ fs, result = RunResult.parsed (.obj fs) ∧ hasKey fs "outputs" = true) ∧
    (∀ fs, result = RunResult.parsed (.obj fs) → hasKey fs "outputs" = true →
      (check_wallet_status result st).channels = pyGetD fs "channels" (.arr .nil)) ∧
    ((check_wallet_status result st).wallet_active = false →
      (check_wallet_status result st).channels = st.channels) := by
  cases result with
  | errStr s => simp [check_wallet_status]
  | parsed v =>
    cases v with
    | obj fs =>
      by_cases hk : hasKey fs "outputs" = true
      · simp [check_wallet_status, hk]
      · simp [check_wallet_status, hk]
    | str s => simp [check_wallet_status]
    | num n => simp [check_wallet_status]
    | bool b => simp [check_wallet_status]
    | null => simp [check_wallet_status]
    | arr es => simp [check_wallet_status]

/-- Witness for C4's amended statement: channels are replaced when "outputs"
is present, and retained verbatim on a failure result. -/
theorem wallet_status_update_witness :
    (check_wallet_status
        (RunResult.parsed (.obj (jobj
          [("outputs", .arr .nil), ("channels", .arr (.cons (.num 1) .nil))]))) node0).channels
      = JsonVal.arr (.cons (.num 1) .nil) ∧
    (check_wallet_status (RunResult.errStr "boom")
        { node0 with channels := .arr (.cons (.num 2) .nil) }).channels
      = JsonVal.arr (.cons (.num 2) .nil) := by
  constructor
  · exact ((wallet_status_update
      (RunResult.parsed (.obj (jobj
        [("outputs", .arr .nil), ("channels", .arr (.cons (.num 1) .nil))]))) node0).2.1
      (jobj [("outputs", .arr .nil), ("channels", .arr (.cons (.num 1) .nil))])
      rfl (by decide)).trans (by decide)
  · exact ((wallet_status_update (RunResult.errStr "boom")
      { node0 with channels := .arr (.cons (.num 2) .nil) }).2.2 (by decide)).trans (by decide)

/-- C5: for every invoice command with at least three arguments whose first
argument is a valid integer literal, the dispatcher issues exactly one
Gateway call, whose amount argument is the display-unit amount multiplied by
1000 (rendered back to a string) and whose description is the remaining
tokens rejoined with single spaces. -/
theorem invoice_amount_and_description (env : Gateway) (st : Sys)
    (command lit label : String) (rest : List String) (n : Int)
    (hsplit : pySplit command = "invoice" :: lit :: label :: rest)
    (hrest : rest ≠ [])
    (hn : pyInt lit = some n) :
    (execute_command env command st).gcalls =
      [("invoice", [toString (n * 1000), label, joinSpace rest])] := by
  cases rest with
  | nil => exact absurd rfl hrest
  | cons d1 drest =>
    simp [execute_command, hsplit, hn, ExecOutcome.gcalls]

/-- Witness for C5 at the spec's concrete example:
`invoice 100 mylabel a coffee` forwards amount "100000" and description
"a coffee". -/
theorem invoice_amount_and_description_witness :
    (execute_command env0 "invoice 100 mylabel a coffee" sys0).gcalls =
      [("invoice", ["100000", "mylabel", "a coffee"])] :=
  (invoice_amount_and_description env0 sys0 "invoice 100 mylabel a coffee"
      "100" "mylabel" ["a", "coffee"] 100 (by decide) (by decide) (by decide)).trans
    (by decide)

/-- C6: each structured builtin invoked with fewer than its required
positional arguments (openchannel with fewer than 2, closechannel with fewer
than 1, invoice with fewer than 3) performs no Gateway call and sets the
output to its usage error string, each of which contains "Usage:". -/
theorem builtin_underflow_usage (env : Gateway) (st : Sys) (c1 c2 c3 : String)
    (ps1 ps2 ps3 : List String) :
    (pySplit c1 = "openchannel" :: ps1 → ps1.length < 2 →
      execute_command env c1 st =
        .ok { st with
              command_history := st.command_history ++ [c1]
              result_output := .s openchannelUsage } []) ∧
    (pySplit c2 = "closechannel" :: ps2 → ps2.length < 1 →
      execute_command env c2 st =
        .ok { st with
              command_history := st.command_history ++ [c2]
              result_output := .s closechannelUsage } []) ∧
    (pySplit c3 = "invoice" :: ps3 → ps3.length < 3 →
      execute_command env c3 st =
        .ok { st with
              command_history := st.command_history ++ [c3]
              result_output := .s invoiceUsage } []) ∧
    strContains openchannelUsage "Usage:" = true ∧
    strContains closechannelUsage "Usage:" = true ∧
    strContains invoiceUsage "Usage:" = true := by
  refine ⟨?_, ?_, ?_, by decide, by decide, by decide⟩
  · intro h hlen
    match ps1, hlen with
    | [], _ => simp [execute_command, h]
    | [a], _ => simp [execute_command, h]
  · intro h hlen
    match ps2, hlen with
    | [], _ => simp [execute_command, h]
  · intro h hlen
    match ps3, hlen with
    | [], _ => simp [execute_command, h]
    | [a], _ => simp [execute_command, h]
    | [a, b], _ => simp [execute_command, h]

/-- Witness for C6 at concrete underflowing invocations of all three
builtins. -/
theorem builtin_underflow_usage_witness :
    execute_command env0 "openchannel peer" sys0 =
      .ok { sys0 with
            command_history := sys0.command_history ++ ["openchannel peer"]
            result_output := .s openchannelUsage } [] ∧
    execute_command env0 "closechannel" sys0 =
      .ok { sys0 with
            command_history := sys0.command_history ++ ["closechannel"]
            result_output := .s closechannelUsage } [] ∧
    execute_command env0 "invoice 5 lbl" sys0 =
      .ok { sys0 with
            command_history := sys0.command_history ++ ["invoice 5 lbl"]
            result_output := .s invoiceUsage } [] :=
  ⟨(builtin_underflow_usage env0 sys0 "openchannel peer" "x" "x" ["peer"] [] []).1
      (by decide) (by decide),
   (builtin_underflow_usage env0 sys0 "x" "closechannel" "x" [] [] []).2.1
      (by decide) (by decide),
   (builtin_underflow_usage env0 sys0 "x" "x" "invoice 5 lbl" [] [] ["5", "lbl"]).2.2.1
      (by decide) (by decide)⟩

/-- C7: for every closechannel invocation with at least one argument, the
dispatcher issues exactly one Gateway close call whose arguments carry the
force directive precisely when a second token is present and is
case-insensitively equal to "force". -/
theorem closechannel_force_directive (env : Gateway) (st : Sys)
    (command channel_id : String) (restParams : List String)
    (hsplit : pySplit command = "closechannel" :: channel_id :: restParams) :
    (execute_command env command st).gcalls =
      [("close", close_channel_params channel_id (forceRequested restParams))] ∧
    (forceRequested restParams = true ↔
      ∃ second rest2, restParams = second :: rest2 ∧ pyLower second = "force") ∧
    (forceRequested restParams = true →
      close_channel_params channel_id (forceRequested restParams) = [channel_id, "force"]) ∧
    (forceRequested restParams = false →
      close_channel_params channel_id (forceRequested restParams) = [channel_id]) := by
  refine ⟨?_, ?_, ?_, ?_⟩
  · simp [execute_command, hsplit, ExecOutcome.gcalls]
  · cases restParams with
    | nil => simp [forceRequested]
    | cons second rest2 => simp [forceRequested]
  · intro h
    simp [close_channel_params, h]
  · intro h
    simp [close_channel_params, h]

/-- Witness for C7 at the spec's concrete examples: `closechannel abc123
FORCE` issues a force close, `closechannel abc123` does not. -/
theorem closechannel_force_directive_witness :
    (execute_command env0 "closechannel abc123 FORCE" sys0).gcalls =
      [("close", ["abc123", "force"])] ∧
    (execute_command env0 "closechannel abc123" sys0).gcalls =
      [("close", ["abc123"])] :=
  ⟨((closechannel_force_directive env0 sys0 "closechannel abc123 FORCE"
      "abc123" ["FORCE"] (by decide)).1).trans (by decide),
   ((closechannel_force_directive env0 sys0 "closechannel abc123"
      "abc123" [] (by decide)).1).trans (by decide)⟩

/-- C8 counterexample: with the menu already showing, submitting bare `help`
leaves it showing — the claim's "hidden if shown" half of the toggle does
not happen (the loop continues and no Gateway call is made, but the menu
state is unchanged rather than toggled off). -/
theorem help_does_not_hide_menu :
    (on_enter env0 "" { sys0 with current_command := "help", show_menu := true }).state.show_menu
      = true ∧
    (on_enter env0 "" { sys0 with current_command := "help", show_menu := true }).continues
      = true ∧
    (on_enter env0 "" { sys0 with current_command := "help", show_menu := true }).gcalls
      = [] := by decide

/-- C8 amended: submitting a line whose trimmed text is `help` shows the
menu if it was hidden (raising the dirty flag) and leaves the state
unchanged if it was already shown — it never hides the menu; in both cases
no Gateway call is made, NodeState is untouched and the input buffer is
reset. -/
theorem help_shows_menu (env : Gateway) (pay_input : String) (st : Sys)
    (h : pyStrip st.current_command = "help") :
    on_enter env pay_input st =
      .cont { st with
              show_menu := true
              balances_changed := st.balances_changed || !st.show_menu
              current_command := ""
              cursor_x := 0 } [] := by
  by_cases hm : st.show_menu
  · simp [on_enter, h, hm]
  · simp [on_enter, h, hm]

/-- Witness for C8's amended statement at a concrete hidden-menu state. -/
theorem help_shows_menu_witness :
    on_enter env0 "" { sys0 with current_command := "help" } =
      .cont { sys0 with show_menu := true, balances_changed := true } [] :=
  (help_shows_menu env0 "" { sys0 with current_command := "help" } (by decide)).trans
    (by decide)

/-- C2 counterexample: the raw line `invoice abc mylabel hello` (a builtin
with a malformed, non-numeric amount) makes the dispatch step leave the
render loop — `continues` is false — even though no shutdown was requested
(`background_thread_running` is still true), contradicting "the loop
continues (only the explicit shutdown request ends it)". -/
theorem malformed_invoice_ends_loop :
    (on_enter env0 "" { sys0 with current_command := "invoice abc mylabel hello" }).continues
      = false ∧
    (on_enter env0 ""
        { sys0 with current_command := "invoice abc mylabel hello" }).state.background_thread_running
      = true := by decide

/-- C2 amended: an invoice line with a non-integer amount raises a
`ValueError` that escapes `execute_command` uncaught; `run`'s top-level
handler converts it to a user-visible `"Error: ..."` string — so it does not
escape the process as an exception — but the render loop then terminates
instead of continuing, without any shutdown having been requested (no
Gateway call is made and the input buffer is not reset). -/
theorem invoice_valueerror_caught_at_top (env : Gateway) (pay_input : String)
    (st : Sys) (cmd lit label : String) (rest : List String)
    (hsplit : pySplit cmd = "invoice" :: lit :: label :: rest)
    (hrest : rest ≠ [])
    (hn : pyInt lit = none)
    (hhelp : pyStrip cmd ≠ "help")
    (hpay : pyStrip cmd ≠ "pay") :
    on_enter env pay_input { st with current_command := cmd } =
      .fatalCaught { st with
                     current_command := cmd
                     show_menu := false
                     command_history := st.command_history ++ [cmd]
                     result_output := .s ("Error: " ++ intErrMsg lit) } [] := by
  cases rest with
  | nil => exact absurd rfl hrest
  | cons d1 drest =>
    simp [on_enter, execute_command, hsplit, hn, hhelp, hpay]

/-- Witness for C2's amended statement at the concrete malformed line. -/
theorem invoice_valueerror_caught_at_top_witness :
    on_enter env0 "" { sys0 with current_command := "invoice abc mylabel hello" } =
      .fatalCaught { sys0 with
                     current_command := "invoice abc mylabel hello"
                     command_history := ["invoice abc mylabel hello"]
                     result_output := .s "Error: invalid literal for int() with base 10: 'abc'" }
        [] :=
  (invoice_valueerror_caught_at_top env0 "" sys0 "invoice abc mylabel hello"
      "abc" "mylabel" ["hello"] (by decide) (by decide) (by decide) (by decide)
      (by decide)).trans (by decide)

/-- C1: the code has no mutual-exclusion mechanism — the poller writes the
shared `LightningNode` attributes one field at a time — so there is a thread
schedule, interleaving one `check_node_status` poll with one redraw's reads,
in which the render thread observes the previous cycle's peer count (3)
together with the new cycle's block height (101): a torn snapshot equal to
neither the all-before nor the all-after atomic observation. -/
theorem torn_snapshot_reachable :
    Interleaves (nodeWrites getinfoAfter) panelReads tornSchedule ∧
    (runSched tornSchedule nodeBefore).2 = [JsonVal.num 3, JsonVal.num 101] ∧
    (runSched tornSchedule nodeBefore).2 ≠ (runSched panelReads nodeBefore).2 ∧
    (runSched tornSchedule nodeBefore).2 ≠
      (runSched (nodeWrites getinfoAfter ++ panelReads) nodeBefore).2 := by
  refine ⟨?_, by decide, by decide, by decide⟩
  show Interleaves
    [.wActive true, .wHeight (.num 101), .wPeers (.num 5)]
    [.rPeers, .rHeight]
    [.wActive true, .wHeight (.num 101), .rPeers, .wPeers (.num 5), .rHeight]
  exact .left (.left (.right (.left (.right .nil))))

end Warp
